import Mathlib

/-!
Shallow embedding of `imgui-winit-support/src/lib.rs` (winit backend platform
for imgui-rs).  `f64`/`f32` values are modelled as exact rationals (`ℚ`);
native window-system calls are modelled as an explicit trace of `NativeCall`
values; the imgui `Io` event queue (`add_key_event`, `add_input_character`,
`add_mouse_wheel_event`, ...) is modelled as append-only lists.
-/

/-- Rust's `f64::round`: round to nearest integer, ties away from zero. -/
def rustRound (q : ℚ) : ℚ :=
  if 0 ≤ q then (⌊q + 1/2⌋ : ℤ) else (⌈q - 1/2⌉ : ℤ)

/-- winit `KeyCode` (physical key codes): every code matched by
`to_imgui_key` in the source, plus a few codes the source leaves unmapped
(`Fn`, `FnLock`, `F13`, `MediaPlayPause`) standing for the `_ => None` arm. -/
inductive KeyCode where
  | Tab | ArrowLeft | ArrowRight | ArrowUp | ArrowDown
  | PageUp | PageDown | Home | End | Insert | Delete | Backspace
  | Space | Enter | Escape
  | ControlLeft | ShiftLeft | AltLeft | SuperLeft
  | ControlRight | ShiftRight | AltRight | SuperRight
  | ContextMenu
  | Digit0 | Digit1 | Digit2 | Digit3 | Digit4
  | Digit5 | Digit6 | Digit7 | Digit8 | Digit9
  | KeyA | KeyB | KeyC | KeyD | KeyE | KeyF | KeyG | KeyH | KeyI
  | KeyJ | KeyK | KeyL | KeyM | KeyN | KeyO | KeyP | KeyQ | KeyR
  | KeyS | KeyT | KeyU | KeyV | KeyW | KeyX | KeyY | KeyZ
  | F1 | F2 | F3 | F4 | F5 | F6 | F7 | F8 | F9 | F10 | F11 | F12
  | Quote | Comma | Minus | Period | Slash | Semicolon | Equal
  | BracketLeft | Backslash | BracketRight | Backquote
  | CapsLock | ScrollLock | NumLock | PrintScreen | Pause
  | Numpad0 | Numpad1 | Numpad2 | Numpad3 | Numpad4
  | Numpad5 | Numpad6 | Numpad7 | Numpad8 | Numpad9
  | NumpadDecimal | NumpadDivide | NumpadMultiply
  | NumpadSubtract | NumpadAdd | NumpadEnter | NumpadEqual
  | Fn | FnLock | F13 | MediaPlayPause
  deriving DecidableEq, Repr

/-- winit `PhysicalKey`: a known key code or an unidentified key. -/
inductive PhysicalKey where
  | Code (code : KeyCode)
  | Unidentified
  deriving DecidableEq, Repr

/-- imgui `Key` (abstract key enum), restricted to the values produced by
this backend. -/
inductive ImguiKey where
  | Tab | LeftArrow | RightArrow | UpArrow | DownArrow
  | PageUp | PageDown | Home | End | Insert | Delete | Backspace
  | Space | Enter | Escape
  | LeftCtrl | LeftShift | LeftAlt | LeftSuper
  | RightCtrl | RightShift | RightAlt | RightSuper
  | Menu
  | Alpha0 | Alpha1 | Alpha2 | Alpha3 | Alpha4
  | Alpha5 | Alpha6 | Alpha7 | Alpha8 | Alpha9
  | A | B | C | D | E | F | G | H | I2 | J | K | L | M | N | O | P | Q | R
  | S | T | U | V | W | X | Y | Z
  | F1 | F2 | F3 | F4 | F5 | F6 | F7 | F8 | F9 | F10 | F11 | F12
  | Apostrophe | Comma | Minus | Period | Slash | Semicolon | Equal
  | LeftBracket | Backslash | RightBracket | GraveAccent
  | CapsLock | ScrollLock | NumLock | PrintScreen | Pause
  | Keypad0 | Keypad1 | Keypad2 | Keypad3 | Keypad4
  | Keypad5 | Keypad6 | Keypad7 | Keypad8 | Keypad9
  | KeypadDecimal | KeypadDivide | KeypadMultiply
  | KeypadSubtract | KeypadAdd | KeypadEnter | KeypadEqual
  | ModShift | ModCtrl | ModAlt | ModSuper
  deriving DecidableEq, Repr

/-- imgui `MouseCursor` (UI-requested cursor shape). -/
inductive ImguiMouseCursor where
  | Arrow | TextInput | ResizeAll | ResizeNS | ResizeEW
  | ResizeNESW | ResizeNWSE | Hand | NotAllowed
  deriving DecidableEq, Repr

/-- winit `CursorIcon` (imported as `MouseCursor` in the source). -/
inductive WinitMouseCursor where
  | Default | Text | Move | NsResize | EwResize
  | NeswResize | NwseResize | Grab | NotAllowed
  deriving DecidableEq, Repr

/-- winit `MouseButton`.  `Other n` carries the native extra-button id. -/
inductive MouseButton where
  | Left | Right | Middle | Back | Forward
  | Other (id : Nat)
  deriving DecidableEq, Repr

/-- imgui `MouseButton`. -/
inductive ImguiMouseButton where
  | Left | Right | Middle | Extra1 | Extra2
  deriving DecidableEq, Repr

/-- winit `ElementState`. -/
inductive ElementState where
  | Pressed | Released
  deriving DecidableEq, Repr

/-- winit `TouchPhase`. -/
inductive TouchPhase where
  | Started | Moved | Ended | Cancelled
  deriving DecidableEq, Repr

/-- winit `MouseScrollDelta`. -/
inductive MouseScrollDelta where
  | LineDelta (h v : ℚ)
  | PixelDelta (x y : ℚ)
  deriving DecidableEq, Repr

/-- winit `ExternalError` (failure of a native window-system call). -/
inductive ExternalError where
  | NotSupported | Ignored | Os
  deriving DecidableEq, Repr

/-- `ActiveHiDpiMode` from the source (the `Locked` payload lives in
`WinitPlatform.hidpi_factor`). -/
inductive ActiveHiDpiMode where
  | Default | Rounded | Locked
  deriving DecidableEq, Repr

/-- `HiDpiMode`: DPI factor handling mode. -/
inductive HiDpiMode where
  | Default
  | Rounded
  | Locked (value : ℚ)
  deriving DecidableEq, Repr

/-- `HiDpiMode::apply`: resolve a mode against the window's native scale
factor into `(active mode, resolved factor)`. -/
def HiDpiMode.apply (m : HiDpiMode) (hidpi_factor : ℚ) : ActiveHiDpiMode × ℚ :=
  match m with
  | HiDpiMode.Default => (ActiveHiDpiMode.Default, hidpi_factor)
  | HiDpiMode.Rounded => (ActiveHiDpiMode.Rounded, rustRound hidpi_factor)
  | HiDpiMode.Locked value => (ActiveHiDpiMode.Locked, value)

/-- `to_winit_cursor`: fixed shape-translation table. -/
def to_winit_cursor (cursor : ImguiMouseCursor) : WinitMouseCursor :=
  match cursor with
  | ImguiMouseCursor.Arrow => WinitMouseCursor.Default
  | ImguiMouseCursor.TextInput => WinitMouseCursor.Text
  | ImguiMouseCursor.ResizeAll => WinitMouseCursor.Move
  | ImguiMouseCursor.ResizeNS => WinitMouseCursor.NsResize
  | ImguiMouseCursor.ResizeEW => WinitMouseCursor.EwResize
  | ImguiMouseCursor.ResizeNESW => WinitMouseCursor.NeswResize
  | ImguiMouseCursor.ResizeNWSE => WinitMouseCursor.NwseResize
  | ImguiMouseCursor.Hand => WinitMouseCursor.Grab
  | ImguiMouseCursor.NotAllowed => WinitMouseCursor.NotAllowed

/-- `to_imgui_mouse_button`: native mouse button to imgui button. -/
def to_imgui_mouse_button (button : MouseButton) : Option ImguiMouseButton :=
  match button with
  | MouseButton.Left | MouseButton.Other 0 => some ImguiMouseButton.Left
  | MouseButton.Right | MouseButton.Other 1 => some ImguiMouseButton.Right
  | MouseButton.Middle | MouseButton.Other 2 => some ImguiMouseButton.Middle
  | MouseButton.Other 3 => some ImguiMouseButton.Extra1
  | MouseButton.Other 4 => some ImguiMouseButton.Extra2
  | _ => none

/-- `to_imgui_key`: native physical key code to optional imgui key. -/
def to_imgui_key (keycode : PhysicalKey) : Option ImguiKey :=
  match keycode with
  | PhysicalKey.Code code =>
    match code with
    | KeyCode.Tab => some ImguiKey.Tab
    | KeyCode.ArrowLeft => some ImguiKey.LeftArrow
    | KeyCode.ArrowRight => some ImguiKey.RightArrow
    | KeyCode.ArrowUp => some ImguiKey.UpArrow
    | KeyCode.ArrowDown => some ImguiKey.DownArrow
    | KeyCode.PageUp => some ImguiKey.PageUp
    | KeyCode.PageDown => some ImguiKey.PageDown
    | KeyCode.Home => some ImguiKey.Home
    | KeyCode.End => some ImguiKey.End
    | KeyCode.Insert => some ImguiKey.Insert
    | KeyCode.Delete => some ImguiKey.Delete
    | KeyCode.Backspace => some ImguiKey.Backspace
    | KeyCode.Space => some ImguiKey.Space
    | KeyCode.Enter => some ImguiKey.Enter
    | KeyCode.Escape => some ImguiKey.Escape
    | KeyCode.ControlLeft => some ImguiKey.LeftCtrl
    | KeyCode.ShiftLeft => some ImguiKey.LeftShift
    | KeyCode.AltLeft => some ImguiKey.LeftAlt
    | KeyCode.SuperLeft => some ImguiKey.LeftSuper
    | KeyCode.ControlRight => some ImguiKey.RightCtrl
    | KeyCode.ShiftRight => some ImguiKey.RightShift
    | KeyCode.AltRight => some ImguiKey.RightAlt
    | KeyCode.SuperRight => some ImguiKey.RightSuper
    | KeyCode.ContextMenu => some ImguiKey.Menu
    | KeyCode.Digit0 => some ImguiKey.Alpha0
    | KeyCode.Digit1 => some ImguiKey.Alpha1
    | KeyCode.Digit2 => some ImguiKey.Alpha2
    | KeyCode.Digit3 => some ImguiKey.Alpha3
    | KeyCode.Digit4 => some ImguiKey.Alpha4
    | KeyCode.Digit5 => some ImguiKey.Alpha5
    | KeyCode.Digit6 => some ImguiKey.Alpha6
    | KeyCode.Digit7 => some ImguiKey.Alpha7
    | KeyCode.Digit8 => some ImguiKey.Alpha8
    | KeyCode.Digit9 => some ImguiKey.Alpha9
    | KeyCode.KeyA => some ImguiKey.A
    | KeyCode.KeyB => some ImguiKey.B
    | KeyCode.KeyC => some ImguiKey.C
    | KeyCode.KeyD => some ImguiKey.D
    | KeyCode.KeyE => some ImguiKey.E
    | KeyCode.KeyF => some ImguiKey.F
    | KeyCode.KeyG => some ImguiKey.G
    | KeyCode.KeyH => some ImguiKey.H
    | KeyCode.KeyI => some ImguiKey.I2
    | KeyCode.KeyJ => some ImguiKey.J
    | KeyCode.KeyK => some ImguiKey.K
    | KeyCode.KeyL => some ImguiKey.L
    | KeyCode.KeyM => some ImguiKey.M
    | KeyCode.KeyN => some ImguiKey.N
    | KeyCode.KeyO => some ImguiKey.O
    | KeyCode.KeyP => some ImguiKey.P
    | KeyCode.KeyQ => some ImguiKey.Q
    | KeyCode.KeyR => some ImguiKey.R
    | KeyCode.KeyS => some ImguiKey.S
    | KeyCode.KeyT => some ImguiKey.T
    | KeyCode.KeyU => some ImguiKey.U
    | KeyCode.KeyV => some ImguiKey.V
    | KeyCode.KeyW => some ImguiKey.W
    | KeyCode.KeyX => some ImguiKey.X
    | KeyCode.KeyY => some ImguiKey.Y
    | KeyCode.KeyZ => some ImguiKey.Z
    | KeyCode.F1 => some ImguiKey.F1
    | KeyCode.F2 => some ImguiKey.F2
    | KeyCode.F3 => some ImguiKey.F3
    | KeyCode.F4 => some ImguiKey.F4
    | KeyCode.F5 => some ImguiKey.F5
    | KeyCode.F6 => some ImguiKey.F6
    | KeyCode.F7 => some ImguiKey.F7
    | KeyCode.F8 => some ImguiKey.F8
    | KeyCode.F9 => some ImguiKey.F9
    | KeyCode.F10 => some ImguiKey.F10
    | KeyCode.F11 => some ImguiKey.F11
    | KeyCode.F12 => some ImguiKey.F12
    | KeyCode.Quote => some ImguiKey.Apostrophe
    | KeyCode.Comma => some ImguiKey.Comma
    | KeyCode.Minus => some ImguiKey.Minus
    | KeyCode.Period => some ImguiKey.Period
    | KeyCode.Slash => some ImguiKey.Slash
    | KeyCode.Semicolon => some ImguiKey.Semicolon
    | KeyCode.Equal => some ImguiKey.Equal
    | KeyCode.BracketLeft => some ImguiKey.LeftBracket
    | KeyCode.Backslash => some ImguiKey.Backslash
    | KeyCode.BracketRight => some ImguiKey.RightBracket
    | KeyCode.Backquote => some ImguiKey.GraveAccent
    | KeyCode.CapsLock => some ImguiKey.CapsLock
    | KeyCode.ScrollLock => some ImguiKey.ScrollLock
    | KeyCode.NumLock => some ImguiKey.NumLock
    | KeyCode.PrintScreen => some ImguiKey.PrintScreen
    | KeyCode.Pause => some ImguiKey.Pause
    | KeyCode.Numpad0 => some ImguiKey.Keypad0
    | KeyCode.Numpad1 => some ImguiKey.Keypad1
    | KeyCode.Numpad2 => some ImguiKey.Keypad2
    | KeyCode.Numpad3 => some ImguiKey.Keypad3
    | KeyCode.Numpad4 => some ImguiKey.Keypad4
    | KeyCode.Numpad5 => some ImguiKey.Keypad5
    | KeyCode.Numpad6 => some ImguiKey.Keypad6
    | KeyCode.Numpad7 => some ImguiKey.Keypad7
    | KeyCode.Numpad8 => some ImguiKey.Keypad8
    | KeyCode.Numpad9 => some ImguiKey.Keypad9
    | KeyCode.NumpadDecimal => some ImguiKey.KeypadDecimal
    | KeyCode.NumpadDivide => some ImguiKey.KeypadDivide
    | KeyCode.NumpadMultiply => some ImguiKey.KeypadMultiply
    | KeyCode.NumpadSubtract => some ImguiKey.KeypadSubtract
    | KeyCode.NumpadAdd => some ImguiKey.KeypadAdd
    | KeyCode.NumpadEnter => some ImguiKey.KeypadEnter
    | KeyCode.NumpadEqual => some ImguiKey.KeypadEqual
    | _ => none
  | PhysicalKey.Unidentified => none

/-- A native window-system call issued by the bridge, recorded as a trace. -/
inductive NativeCall where
  | SetCursorVisible (visible : Bool)
  | SetCursorIcon (icon : WinitMouseCursor)
  | SetCursorPosition (pos : ℚ × ℚ)
  deriving DecidableEq, Repr

/-- `CursorSettings`: value type cached to suppress redundant cursor calls. -/
structure CursorSettings where
  cursor : Option ImguiMouseCursor
  draw_cursor : Bool
  deriving DecidableEq, Repr

/-- `CursorSettings::apply`: the native calls made when applying the
settings to the window (`Some(c) if !draw_cursor` shows the cursor and sets
its icon; anything else hides the cursor). -/
def CursorSettings.apply (s : CursorSettings) : List NativeCall :=
  match s.cursor, s.draw_cursor with
  | some mouse_cursor, false =>
    [NativeCall.SetCursorVisible true,
     NativeCall.SetCursorIcon (to_winit_cursor mouse_cursor)]
  | _, _ => [NativeCall.SetCursorVisible false]

/-- The imgui `Io` state mutated by the bridge.  Queued imgui events
(`add_key_event`, `add_input_character`, `add_mouse_pos_event`,
`add_mouse_wheel_event`, `add_mouse_button_event`) are modelled as
append-only lists.  A mouse-position axis is `none` when the stored `f32`
is non-finite (`is_finite()` returns false). -/
structure Io where
  display_size : ℚ × ℚ
  display_framebuffer_scale : ℚ × ℚ
  mouse_pos : Option ℚ × Option ℚ
  want_set_mouse_pos : Bool
  mouse_draw_cursor : Bool
  config_no_mouse_cursor_change : Bool
  app_focus_lost : Bool
  key_events : List (ImguiKey × Bool)
  input_chars : List Char
  mouse_pos_events : List (ℚ × ℚ)
  mouse_wheel_events : List (ℚ × ℚ)
  mouse_button_events : List (ImguiMouseButton × Bool)
  deriving DecidableEq, Repr

/-- `Io::add_key_event`. -/
def Io.add_key_event (io : Io) (key : ImguiKey) (down : Bool) : Io :=
  { io with key_events := io.key_events ++ [(key, down)] }

/-- `Io::add_input_character`. -/
def Io.add_input_character (io : Io) (ch : Char) : Io :=
  { io with input_chars := io.input_chars ++ [ch] }

/-- `Io::add_mouse_pos_event`. -/
def Io.add_mouse_pos_event (io : Io) (pos : ℚ × ℚ) : Io :=
  { io with mouse_pos_events := io.mouse_pos_events ++ [pos] }

/-- `Io::add_mouse_wheel_event`. -/
def Io.add_mouse_wheel_event (io : Io) (wheel : ℚ × ℚ) : Io :=
  { io with mouse_wheel_events := io.mouse_wheel_events ++ [wheel] }

/-- `Io::add_mouse_button_event`. -/
def Io.add_mouse_button_event (io : Io) (mb : ImguiMouseButton) (down : Bool) : Io :=
  { io with mouse_button_events := io.mouse_button_events ++ [(mb, down)] }

/-- `handle_key_modifier(io, key, down)`, with the source's exact
conditions: note the second branch compares against
`PhysicalKey::Code(KeyCode::ControlRight)` on both sides of the `||`. -/
def handle_key_modifier (io : Io) (key : PhysicalKey) (down : Bool) : Io :=
  if key = PhysicalKey.Code KeyCode.ShiftLeft ∨ key = PhysicalKey.Code KeyCode.ShiftRight then
    io.add_key_event ImguiKey.ModShift down
  else if key = PhysicalKey.Code KeyCode.ControlRight ∨ key = PhysicalKey.Code KeyCode.ControlRight then
    io.add_key_event ImguiKey.ModCtrl down
  else if key = PhysicalKey.Code KeyCode.AltLeft ∨ key = PhysicalKey.Code KeyCode.AltRight then
    io.add_key_event ImguiKey.ModAlt down
  else if key = PhysicalKey.Code KeyCode.SuperLeft ∨ key = PhysicalKey.Code KeyCode.SuperRight then
    io.add_key_event ImguiKey.ModSuper down
  else io

/-- `handle_received_character(io, text)`: forward each character of the
text payload except the DEL control character (U+007F). -/
def handle_received_character (io : Io) (text : List Char) : Io :=
  text.foldl (fun io ch => if ch ≠ Char.ofNat 0x7f then io.add_input_character ch else io) io

/-- winit `Window`: the operations the bridge consumes from the window
handle.  `set_cursor_position` is the window system's fallible response to
a programmatic cursor move, as a function of the requested position. -/
structure Window where
  id : Nat
  scale_factor : ℚ
  inner_size : ℚ × ℚ
  set_cursor_position : ℚ × ℚ → Except ExternalError Unit

/-- winit `LogicalPosition/LogicalSize::to_physical`: multiply by the
scale factor. -/
def logicalToPhysical (v : ℚ × ℚ) (scale_factor : ℚ) : ℚ × ℚ :=
  (v.1 * scale_factor, v.2 * scale_factor)

/-- winit `PhysicalPosition/PhysicalSize::to_logical`: divide by the
scale factor. -/
def physicalToLogical (v : ℚ × ℚ) (scale_factor : ℚ) : ℚ × ℚ :=
  (v.1 / scale_factor, v.2 / scale_factor)

/-- The numeric readout of a stored mouse coordinate
(`f64::from(io.mouse_pos[i])`).  Reading a non-finite value is outside the
model; no claim depends on it. -/
def mouseCoordVal (x : Option ℚ) : ℚ := x.getD 0

/-- `WinitPlatform`: winit backend platform state. -/
structure WinitPlatform where
  hidpi_mode : ActiveHiDpiMode
  hidpi_factor : ℚ
  cursor_cache : Option CursorSettings
  deriving DecidableEq, Repr

/-- `WinitPlatform::init`: fresh bridge with identity DPI state.  (Backend
capability flags and the platform-name string registered on the imgui
context are configuration outside this model.) -/
def WinitPlatform.init : WinitPlatform :=
  { hidpi_mode := ActiveHiDpiMode.Default, hidpi_factor := 1, cursor_cache := none }

/-- `WinitPlatform::scale_size_from_winit`. -/
def WinitPlatform.scale_size_from_winit (p : WinitPlatform) (window : Window)
    (logical_size : ℚ × ℚ) : ℚ × ℚ :=
  match p.hidpi_mode with
  | ActiveHiDpiMode.Default => logical_size
  | _ => physicalToLogical (logicalToPhysical logical_size window.scale_factor) p.hidpi_factor

/-- `WinitPlatform::scale_pos_from_winit`. -/
def WinitPlatform.scale_pos_from_winit (p : WinitPlatform) (window : Window)
    (logical_pos : ℚ × ℚ) : ℚ × ℚ :=
  match p.hidpi_mode with
  | ActiveHiDpiMode.Default => logical_pos
  | _ => physicalToLogical (logicalToPhysical logical_pos window.scale_factor) p.hidpi_factor

/-- `WinitPlatform::scale_pos_for_winit`. -/
def WinitPlatform.scale_pos_for_winit (p : WinitPlatform) (window : Window)
    (logical_pos : ℚ × ℚ) : ℚ × ℚ :=
  match p.hidpi_mode with
  | ActiveHiDpiMode.Default => logical_pos
  | _ => physicalToLogical (logicalToPhysical logical_pos p.hidpi_factor) window.scale_factor

/-- `WinitPlatform::attach_window`. -/
def WinitPlatform.attach_window (p : WinitPlatform) (io : Io) (window : Window)
    (hidpi_mode : HiDpiMode) : WinitPlatform × Io :=
  let res := hidpi_mode.apply window.scale_factor
  let p := { p with hidpi_mode := res.1, hidpi_factor := res.2 }
  let io := { io with display_framebuffer_scale := (res.2, res.2) }
  let logical_size := physicalToLogical window.inner_size res.2
  let logical_size := p.scale_size_from_winit window logical_size
  (p, { io with display_size := logical_size })

/-- winit `WindowEvent`, restricted to the variants the bridge dispatches
on; `CloseRequested` stands for the events falling to the `_ => ()` arm.
`ModifiersChanged` carries the four native modifier-state flags. -/
inductive WindowEvent where
  | Resized (physical_size : ℚ × ℚ)
  | ScaleFactorChanged (scale_factor : ℚ)
  | ModifiersChanged (shift_key control_key alt_key super_key : Bool)
  | KeyboardInput (physical_key : PhysicalKey) (state : ElementState) (text : Option (List Char))
  | CursorMoved (position : ℚ × ℚ)
  | MouseWheel (delta : MouseScrollDelta) (phase : TouchPhase)
  | MouseInput (state : ElementState) (button : MouseButton)
  | Focused (newly_focused : Bool)
  | CloseRequested
  deriving DecidableEq, Repr

/-- winit `Event`: a window event tagged with its window id, a device-level
key event, or any other event (falling to the `_ => ()` arm). -/
inductive Event where
  | WindowEvent (window_id : Nat) (event : WindowEvent)
  | DeviceKeyEvent (state : ElementState) (physical_key : PhysicalKey)
  | UserEvent
  deriving DecidableEq, Repr

/-- `WinitPlatform::handle_window_event`. -/
def WinitPlatform.handle_window_event (p : WinitPlatform) (io : Io) (window : Window)
    (event : WindowEvent) : WinitPlatform × Io :=
  match event with
  | WindowEvent.Resized physical_size =>
    let logical_size := physicalToLogical physical_size window.scale_factor
    let logical_size := p.scale_size_from_winit window logical_size
    (p, { io with display_size := logical_size })
  | WindowEvent.ScaleFactorChanged scale_factor =>
    let hf : Option ℚ :=
      match p.hidpi_mode with
      | ActiveHiDpiMode.Default => some scale_factor
      | ActiveHiDpiMode.Rounded => some (rustRound scale_factor)
      | ActiveHiDpiMode.Locked => none
    match hf with
    | none => (p, io)
    | some hidpi_factor =>
      let io :=
        if io.mouse_pos.1.isSome && io.mouse_pos.2.isSome then
          { io with mouse_pos :=
              (io.mouse_pos.1.map (fun x => x * (hidpi_factor / p.hidpi_factor)),
               io.mouse_pos.2.map (fun y => y * (hidpi_factor / p.hidpi_factor))) }
        else io
      let p := { p with hidpi_factor := hidpi_factor }
      let io := { io with display_framebuffer_scale := (hidpi_factor, hidpi_factor) }
      let logical_size := physicalToLogical window.inner_size scale_factor
      let logical_size := p.scale_size_from_winit window logical_size
      (p, { io with display_size := logical_size })
  | WindowEvent.ModifiersChanged shift_key control_key alt_key super_key =>
    let io := io.add_key_event ImguiKey.ModShift shift_key
    let io := io.add_key_event ImguiKey.ModCtrl control_key
    let io := io.add_key_event ImguiKey.ModAlt alt_key
    let io := io.add_key_event ImguiKey.ModSuper super_key
    (p, io)
  | WindowEvent.KeyboardInput key state text =>
    let pressed : Bool := decide (state = ElementState.Pressed)
    let io := handle_key_modifier io key pressed
    let io :=
      match to_imgui_key key with
      | some k => io.add_key_event k pressed
      | none => io
    let io :=
      match text with
      | some t => handle_received_character io t
      | none => io
    (p, io)
  | WindowEvent.CursorMoved position =>
    let position := physicalToLogical position window.scale_factor
    let position := p.scale_pos_from_winit window position
    (p, io.add_mouse_pos_event position)
  | WindowEvent.MouseWheel delta phase =>
    match phase with
    | TouchPhase.Moved =>
      let hv : ℚ × ℚ :=
        match delta with
        | MouseScrollDelta.LineDelta h v => (h, v)
        | MouseScrollDelta.PixelDelta px py =>
          let pos := physicalToLogical (px, py) p.hidpi_factor
          let h : ℚ := if pos.1 > 0 then 1 else if pos.1 < 0 then -1 else 0
          let v : ℚ := if pos.2 > 0 then 1 else if pos.2 < 0 then -1 else 0
          (h, v)
      (p, io.add_mouse_wheel_event hv)
    | _ => (p, io)
  | WindowEvent.MouseInput state button =>
    match to_imgui_mouse_button button with
    | some mb => (p, io.add_mouse_button_event mb (decide (state = ElementState.Pressed)))
    | none => (p, io)
  | WindowEvent.Focused newly_focused =>
    if !newly_focused then (p, { io with app_focus_lost := true }) else (p, io)
  | WindowEvent.CloseRequested => (p, io)

/-- `WinitPlatform::handle_event`: dispatch a winit event; window events are
filtered by window identity, device-level key releases are forwarded
regardless of window affinity. -/
def WinitPlatform.handle_event (p : WinitPlatform) (io : Io) (window : Window)
    (event : Event) : WinitPlatform × Io :=
  match event with
  | Event.WindowEvent window_id ev =>
    if window_id = window.id then p.handle_window_event io window ev else (p, io)
  | Event.DeviceKeyEvent ElementState.Released key =>
    (match to_imgui_key key with
     | some k => (p, io.add_key_event k false)
     | none => (p, io))
  | _ => (p, io)

/-- `WinitPlatform::prepare_frame`: returns the result of the (single)
fallible native call together with the trace of native calls issued. -/
def WinitPlatform.prepare_frame (p : WinitPlatform) (io : Io) (window : Window) :
    Except ExternalError Unit × List NativeCall :=
  if io.want_set_mouse_pos then
    let logical_pos := p.scale_pos_for_winit window
      (mouseCoordVal io.mouse_pos.1, mouseCoordVal io.mouse_pos.2)
    (window.set_cursor_position logical_pos, [NativeCall.SetCursorPosition logical_pos])
  else (Except.ok (), [])

/-- The imgui `Ui` handle as consumed by `prepare_render`: access to `Io`
and the UI-requested cursor shape. -/
structure Ui where
  io : Io
  mouse_cursor : Option ImguiMouseCursor

/-- `WinitPlatform::prepare_render`: cursor reconciliation; returns the new
bridge state and the trace of native cursor calls issued. -/
def WinitPlatform.prepare_render (p : WinitPlatform) (ui : Ui) :
    WinitPlatform × List NativeCall :=
  let io := ui.io
  if !io.config_no_mouse_cursor_change then
    let cursor : CursorSettings := { cursor := ui.mouse_cursor, draw_cursor := io.mouse_draw_cursor }
    if p.cursor_cache ≠ some cursor then
      ({ p with cursor_cache := some cursor }, cursor.apply)
    else (p, [])
  else (p, [])

/-- A concrete window used to instantiate theorems: scale factor 3/2,
physical size 300 by 300, cursor positioning always accepted. -/
def testWindow : Window :=
  { id := 0, scale_factor := 3/2, inner_size := (300, 300),
    set_cursor_position := fun _ => Except.ok () }

/-- A concrete window whose window system rejects programmatic cursor
placement. -/
def testWindowErr : Window :=
  { id := 0, scale_factor := 1, inner_size := (300, 300),
    set_cursor_position := fun _ => Except.error ExternalError.Os }

/-- A concrete `Io` state with empty event queues. -/
def testIo : Io :=
  { display_size := (0, 0), display_framebuffer_scale := (1, 1),
    mouse_pos := (some 0, some 0), want_set_mouse_pos := false,
    mouse_draw_cursor := false, config_no_mouse_cursor_change := false,
    app_focus_lost := false, key_events := [], input_chars := [],
    mouse_pos_events := [], mouse_wheel_events := [], mouse_button_events := [] }

/-- `testIo` with a pending UI request to set the mouse position. -/
def testIoWantSet : Io :=
  { testIo with want_set_mouse_pos := true, mouse_pos := (some 10, some 20) }

/-- A concrete bridge state in Rounded mode with resolved factor 2. -/
def testPlatformRounded : WinitPlatform :=
  { hidpi_mode := ActiveHiDpiMode.Rounded, hidpi_factor := 2, cursor_cache := none }

/-- A concrete bridge state in Locked mode. -/
def testPlatformLocked : WinitPlatform :=
  { hidpi_mode := ActiveHiDpiMode.Locked, hidpi_factor := 1, cursor_cache := none }

/-- A concrete `Ui` handle requesting the arrow cursor. -/
def testUi : Ui :=
  { io := testIo, mouse_cursor := some ImguiMouseCursor.Arrow }

/-- `rustRound` always yields an integer value. -/
theorem rustRound_int (q : ℚ) : ∃ n : ℤ, rustRound q = (n : ℚ) := by
  unfold rustRound
  split
  · exact ⟨⌊q + 1/2⌋, rfl⟩
  · exact ⟨⌈q - 1/2⌉, rfl⟩

/-- `rustRound` lands within one half of its argument. -/
theorem rustRound_near (q : ℚ) : |rustRound q - q| ≤ 1/2 := by
  unfold rustRound
  split
  · have h1 : (⌊q + 1/2⌋ : ℚ) ≤ q + 1/2 := Int.floor_le _
    have h2 : q + 1/2 < (⌊q + 1/2⌋ : ℚ) + 1 := Int.lt_floor_add_one _
    rw [abs_le]
    constructor <;> linarith
  · have h1 : q - 1/2 ≤ (⌈q - 1/2⌉ : ℚ) := Int.le_ceil _
    have h2 : (⌈q - 1/2⌉ : ℚ) < q - 1/2 + 1 := Int.ceil_lt_add_one _
    rw [abs_le]
    constructor <;> linarith

/-- `rustRound` is a nearest integer: no integer is strictly closer. -/
theorem rustRound_nearest (q : ℚ) (m : ℤ) : |rustRound q - q| ≤ |(m : ℚ) - q| := by
  obtain ⟨n, hn⟩ := rustRound_int q
  have hnear := rustRound_near q
  rw [hn] at hnear ⊢
  by_cases hmn : m = n
  · subst hmn
    exact le_refl _
  · have h1 : (1 : ℚ) ≤ |(m : ℚ) - (n : ℚ)| := by
      have h0 : (1 : ℤ) ≤ |m - n| := Int.one_le_abs (sub_ne_zero.mpr hmn)
      have h2 : ((1 : ℤ) : ℚ) ≤ ((|m - n| : ℤ) : ℚ) := by exact_mod_cast h0
      rw [Int.cast_abs, Int.cast_sub] at h2
      simpa using h2
    have htri : |((m : ℚ)) - (n : ℚ)| ≤ |(m : ℚ) - q| + |q - (n : ℚ)| := abs_sub_le _ _ _
    rw [abs_sub_comm q (n : ℚ)] at htri
    linarith

/-- `rustRound` is positive on arguments at least one half. -/
theorem rustRound_pos (q : ℚ) (h : 1/2 ≤ q) : 0 < rustRound q := by
  unfold rustRound
  rw [if_pos (by linarith)]
  have h1 : (1 : ℤ) ≤ ⌊q + 1/2⌋ := Int.le_floor.mpr (by push_cast; linarith)
  exact_mod_cast lt_of_lt_of_le Int.zero_lt_one h1

/-- Claim C3: resolving a DPI mode against a native factor `f` gives: in
Default mode the factor `f` unchanged; in Locked mode exactly the locked
value, independent of `f`; in Rounded mode an integer no farther from `f`
than any other integer, with the deterministic ties-away-from-zero rule
(5/2 rounds to 3, -5/2 rounds to -3). -/
theorem C3_dpi_mode_resolution (f v : ℚ) :
    HiDpiMode.apply HiDpiMode.Default f = (ActiveHiDpiMode.Default, f) ∧
    HiDpiMode.apply (HiDpiMode.Locked v) f = (ActiveHiDpiMode.Locked, v) ∧
    (∃ n : ℤ, (HiDpiMode.apply HiDpiMode.Rounded f).2 = (n : ℚ)) ∧
    (∀ m : ℤ, |(HiDpiMode.apply HiDpiMode.Rounded f).2 - f| ≤ |(m : ℚ) - f|) ∧
    (HiDpiMode.apply HiDpiMode.Rounded (5/2)).2 = 3 ∧
    (HiDpiMode.apply HiDpiMode.Rounded (-(5/2))).2 = -3 := by
  refine ⟨rfl, rfl, rustRound_int f, fun m => rustRound_nearest f m, ?_, ?_⟩
  · show rustRound (5/2) = 3
    norm_num [rustRound]
  · show rustRound (-(5/2)) = -3
    rw [rustRound, if_neg (by norm_num)]
    rw [show (-(5/2) : ℚ) - 1/2 = ((-3 : ℤ) : ℚ) by norm_num, Int.ceil_intCast]
    norm_num

/-- Claim C2, counterexample: with mode `Locked(0)` and native factor 3/2
the resolved factor held after resolution is 0, which is not strictly
positive — the claim "for every v" fails. -/
theorem C2_counterexample :
    ¬ (0 < (HiDpiMode.apply (HiDpiMode.Locked 0) (3/2)).2) := by
  norm_num [HiDpiMode.apply]

/-- Claim C2 (amended): the resolved factor is strictly positive provided
the native factor is positive, the native factor is at least one half when
the mode is Rounded, and the locked value is positive when the mode is
Locked; under the same provisos a scale-factor-changed event handled by the
bridge keeps `hidpi_factor` strictly positive.  (All values are finite in
the exact-arithmetic model.) -/
theorem C2_amended_resolved_factor_pos :
    (∀ (m : HiDpiMode) (f : ℚ), 0 < f →
      (m = HiDpiMode.Rounded → 1/2 ≤ f) →
      (∀ v, m = HiDpiMode.Locked v → 0 < v) →
      0 < (HiDpiMode.apply m f).2) ∧
    (∀ (p : WinitPlatform) (io : Io) (w : Window) (sf : ℚ),
      0 < p.hidpi_factor → 0 < sf →
      (p.hidpi_mode = ActiveHiDpiMode.Rounded → 1/2 ≤ sf) →
      0 < (p.handle_window_event io w (WindowEvent.ScaleFactorChanged sf)).1.hidpi_factor) := by
  constructor
  · intro m f hf hr hl
    cases m with
    | Default => exact hf
    | Rounded => exact rustRound_pos f (hr rfl)
    | Locked v => exact hl v rfl
  · intro p io w sf hp hsf hr
    cases hm : p.hidpi_mode with
    | Default =>
      simp [WinitPlatform.handle_window_event, hm]
      exact hsf
    | Rounded =>
      simp [WinitPlatform.handle_window_event, hm]
      exact rustRound_pos sf (hr hm)
    | Locked =>
      simp [WinitPlatform.handle_window_event, hm]
      exact hp

/-- Witness for the amended C2 at concrete inputs. -/
theorem C2_amended_witness :
    0 < (HiDpiMode.apply HiDpiMode.Rounded (3/2)).2 :=
  C2_amended_resolved_factor_pos.1 HiDpiMode.Rounded (3/2) (by norm_num)
    (fun _ => by norm_num) (fun v h => HiDpiMode.noConfusion h)

/-- Claim C4: when the active DPI mode is Locked, a scale-factor-changed
event delivered to `handle_event` leaves the bridge state (hence
`hidpi_factor`) and the whole `Io` state (mouse position, framebuffer
scale, display size) unchanged — the event is ignored entirely. -/
theorem C4_locked_ignores_scale_factor_change (p : WinitPlatform) (io : Io) (w : Window)
    (sf : ℚ) (h : p.hidpi_mode = ActiveHiDpiMode.Locked) :
    p.handle_event io w (Event.WindowEvent w.id (WindowEvent.ScaleFactorChanged sf)) = (p, io) := by
  simp [WinitPlatform.handle_event, WinitPlatform.handle_window_event, h]

/-- Witness for C4 at concrete inputs. -/
theorem C4_witness :
    testPlatformLocked.handle_event testIo testWindow
        (Event.WindowEvent testWindow.id (WindowEvent.ScaleFactorChanged 2))
      = (testPlatformLocked, testIo) :=
  C4_locked_ignores_scale_factor_change testPlatformLocked testIo testWindow 2 rfl

/-- Claim C5: for every bridge state with positive factors and every
logical position, `scale_pos_for_winit` after `scale_pos_from_winit`
returns the position exactly (the exact-arithmetic round trip, hence
within floating tolerance). -/
theorem C5_scale_pos_round_trip (p : WinitPlatform) (w : Window) (pos : ℚ × ℚ)
    (hh : 0 < p.hidpi_factor) (hw : 0 < w.scale_factor) :
    p.scale_pos_for_winit w (p.scale_pos_from_winit w pos) = pos := by
  have h1 : p.hidpi_factor ≠ 0 := ne_of_gt hh
  have h2 : w.scale_factor ≠ 0 := ne_of_gt hw
  cases hm : p.hidpi_mode with
  | Default =>
    simp [WinitPlatform.scale_pos_for_winit, WinitPlatform.scale_pos_from_winit, hm]
  | Rounded =>
    simp only [WinitPlatform.scale_pos_for_winit, WinitPlatform.scale_pos_from_winit, hm,
      physicalToLogical, logicalToPhysical]
    exact Prod.ext (by field_simp) (by field_simp)
  | Locked =>
    simp only [WinitPlatform.scale_pos_for_winit, WinitPlatform.scale_pos_from_winit, hm,
      physicalToLogical, logicalToPhysical]
    exact Prod.ext (by field_simp) (by field_simp)

/-- Witness for C5 at concrete inputs (Rounded mode, factors 2 and 3/2). -/
theorem C5_witness :
    testPlatformRounded.scale_pos_for_winit testWindow
        (testPlatformRounded.scale_pos_from_winit testWindow (5, 7)) = (5, 7) :=
  C5_scale_pos_round_trip testPlatformRounded testWindow (5, 7)
    (by simp [testPlatformRounded]) (by simp [testWindow])

/-- Claim C1, evaluated at the failing input: a pressed left-Ctrl keyboard
event emits only the specific `LeftCtrl` key event and no `ModCtrl` event,
because `handle_key_modifier` tests `ControlRight` on both sides of its
`||`; a pressed right-Ctrl event does get the `ModCtrl` fanout (the other
six modifier keys behave as specified). -/
theorem C1_left_ctrl_missing_modifier_fanout :
    (WinitPlatform.init.handle_window_event testIo testWindow
        (WindowEvent.KeyboardInput (PhysicalKey.Code KeyCode.ControlLeft)
          ElementState.Pressed none)).2.key_events
      = [(ImguiKey.LeftCtrl, true)] ∧
    (WinitPlatform.init.handle_window_event testIo testWindow
        (WindowEvent.KeyboardInput (PhysicalKey.Code KeyCode.ControlRight)
          ElementState.Pressed none)).2.key_events
      = [(ImguiKey.ModCtrl, true), (ImguiKey.RightCtrl, true)] := by
  constructor <;> rfl

/-- `handle_received_character` appends exactly the non-DEL characters of
the text payload, in order, to the input-character queue. -/
theorem handle_received_character_spec (io : Io) (text : List Char) :
    handle_received_character io text
      = { io with input_chars :=
            io.input_chars ++ text.filter (fun ch => ch ≠ Char.ofNat 0x7f) } := by
  induction text generalizing io with
  | nil => simp [handle_received_character]
  | cons c cs ih =>
    have step : handle_received_character io (c :: cs)
        = handle_received_character
            (if c ≠ Char.ofNat 0x7f then io.add_input_character c else io) cs := rfl
    rw [step, ih]
    by_cases hc : c = Char.ofNat 0x7f
    · subst hc
      simp [List.filter_cons]
    · simp [hc, List.filter_cons, Io.add_input_character]

/-- Claim C7: the DEL control character (0x7F) is never forwarded to the
input-character queue; every other character of the payload is forwarded
in payload order. -/
theorem C7_del_never_forwarded (io : Io) (text : List Char) :
    (handle_received_character io text).input_chars
      = io.input_chars ++ text.filter (fun ch => ch ≠ Char.ofNat 0x7f) ∧
    Char.ofNat 0x7f ∉ text.filter (fun ch => ch ≠ Char.ofNat 0x7f) := by
  refine ⟨by rw [handle_received_character_spec], ?_⟩
  intro hmem
  rcases List.mem_filter.mp hmem with ⟨-, hdec⟩
  simp at hdec

/-- Dividing by a positive factor preserves the sign quantization used for
pixel-delta scroll values. -/
theorem quantize_div (a h : ℚ) (hh : 0 < h) :
    (if a / h > 0 then (1 : ℚ) else if a / h < 0 then -1 else 0)
      = (if a > 0 then (1 : ℚ) else if a < 0 then -1 else 0) := by
  rcases lt_trichotomy a 0 with ha | ha | ha
  · have hd : a / h < 0 := div_neg_of_neg_of_pos ha hh
    rw [if_neg (asymm hd), if_pos hd, if_neg (asymm ha), if_pos ha]
  · subst ha
    rw [zero_div]
  · have hd : 0 < a / h := div_pos ha hh
    rw [if_pos hd, if_pos ha]

/-- Claim C8: a pixel-delta wheel event pushes a wheel event whose axes are
the signs of the physical delta: +1 for a positive axis delta, -1 for a
negative one, 0 otherwise, discarding the magnitude. -/
theorem C8_pixel_delta_sign (p : WinitPlatform) (io : Io) (w : Window) (px py : ℚ)
    (hh : 0 < p.hidpi_factor) :
    (p.handle_window_event io w
        (WindowEvent.MouseWheel (MouseScrollDelta.PixelDelta px py)
          TouchPhase.Moved)).2.mouse_wheel_events
      = io.mouse_wheel_events ++
        [((if px > 0 then (1 : ℚ) else if px < 0 then -1 else 0),
          (if py > 0 then (1 : ℚ) else if py < 0 then -1 else 0))] := by
  simp only [WinitPlatform.handle_window_event, physicalToLogical, Io.add_mouse_wheel_event]
  rw [quantize_div px p.hidpi_factor hh, quantize_div py p.hidpi_factor hh]

/-- Witness for C8: the physical delta (-3.2, 0) yields the wheel event
(-1, 0). -/
theorem C8_witness :
    (WinitPlatform.init.handle_window_event testIo testWindow
        (WindowEvent.MouseWheel (MouseScrollDelta.PixelDelta (-3.2) 0)
          TouchPhase.Moved)).2.mouse_wheel_events
      = [(-1, 0)] := by
  rw [C8_pixel_delta_sign WinitPlatform.init testIo testWindow (-3.2) 0
    (by simp [WinitPlatform.init])]
  norm_num [testIo]

/-- Claim C9: `prepare_frame` is a no-op returning Ok when no mouse-position
set is pending; otherwise it converts the UI-logical mouse position via
`scale_pos_for_winit`, issues exactly one native set-cursor-position call,
and returns that call's result unchanged. -/
theorem C9_prepare_frame (p : WinitPlatform) (io : Io) (w : Window) :
    (io.want_set_mouse_pos = false →
      p.prepare_frame io w = (Except.ok (), [])) ∧
    (io.want_set_mouse_pos = true →
      p.prepare_frame io w
        = (w.set_cursor_position
            (p.scale_pos_for_winit w
              (mouseCoordVal io.mouse_pos.1, mouseCoordVal io.mouse_pos.2)),
           [NativeCall.SetCursorPosition
             (p.scale_pos_for_winit w
               (mouseCoordVal io.mouse_pos.1, mouseCoordVal io.mouse_pos.2))])) := by
  constructor <;> intro h <;> simp [WinitPlatform.prepare_frame, h]

/-- Witness for C9: with a pending position set and a window system that
rejects cursor placement, the error comes back unchanged alongside the
single native call. -/
theorem C9_witness :
    WinitPlatform.init.prepare_frame testIoWantSet testWindowErr
      = (Except.error ExternalError.Os, [NativeCall.SetCursorPosition (10, 20)]) := by
  rw [(C9_prepare_frame WinitPlatform.init testIoWantSet testWindowErr).2 rfl]
  rfl

/-- Claim C10: a mouse-wheel event whose touch phase is not Moved is
dropped by `handle_event`: no wheel delta is pushed and bridge and `Io`
state are unchanged. -/
theorem C10_wheel_phase_filter (p : WinitPlatform) (io : Io) (w : Window)
    (delta : MouseScrollDelta) (phase : TouchPhase) (h : phase ≠ TouchPhase.Moved) :
    p.handle_event io w (Event.WindowEvent w.id (WindowEvent.MouseWheel delta phase))
      = (p, io) := by
  cases phase with
  | Moved => exact absurd rfl h
  | Started => simp [WinitPlatform.handle_event, WinitPlatform.handle_window_event]
  | Ended => simp [WinitPlatform.handle_event, WinitPlatform.handle_window_event]
  | Cancelled => simp [WinitPlatform.handle_event, WinitPlatform.handle_window_event]

/-- Witness for C10 at a concrete non-Moved wheel event. -/
theorem C10_witness :
    WinitPlatform.init.handle_event testIo testWindow
        (Event.WindowEvent testWindow.id
          (WindowEvent.MouseWheel (MouseScrollDelta.LineDelta 1 1) TouchPhase.Started))
      = (WinitPlatform.init, testIo) :=
  C10_wheel_phase_filter WinitPlatform.init testIo testWindow
    (MouseScrollDelta.LineDelta 1 1) TouchPhase.Started (by simp)

/-- Applying cursor settings always issues at least one native call. -/
theorem cursorSettings_apply_ne_nil (s : CursorSettings) : s.apply ≠ [] := by
  rcases s with ⟨cursor, draw⟩
  cases cursor <;> cases draw <;> simp [CursorSettings.apply]

/-- Claim C6: with cursor changes enabled and a cache that differs from the
computed settings, the first `prepare_render` applies exactly one set of
native cursor calls and a second call with the same UI cursor request and
draw-cursor flag applies nothing, because the computed `CursorSettings`
now equals the cached value. -/
theorem C6_prepare_render_idempotent (p : WinitPlatform) (ui : Ui)
    (hcfg : ui.io.config_no_mouse_cursor_change = false)
    (hdiff : p.cursor_cache
      ≠ some (CursorSettings.mk ui.mouse_cursor ui.io.mouse_draw_cursor)) :
    (p.prepare_render ui).2
        = (CursorSettings.mk ui.mouse_cursor ui.io.mouse_draw_cursor).apply ∧
    (p.prepare_render ui).2 ≠ [] ∧
    ((p.prepare_render ui).1.prepare_render ui).2 = [] := by
  have happly : p.prepare_render ui
      = ({ p with
            cursor_cache := some (CursorSettings.mk ui.mouse_cursor ui.io.mouse_draw_cursor) },
         (CursorSettings.mk ui.mouse_cursor ui.io.mouse_draw_cursor).apply) := by
    simp [WinitPlatform.prepare_render, hcfg, hdiff]
  refine ⟨by rw [happly], by rw [happly]; exact cursorSettings_apply_ne_nil _, ?_⟩
  rw [happly]
  simp [WinitPlatform.prepare_render, hcfg]

/-- Witness for C6 at concrete inputs: cache starts empty, the second call
is silent. -/
theorem C6_witness :
    ((WinitPlatform.init.prepare_render testUi).1.prepare_render testUi).2 = [] :=
  (C6_prepare_render_idempotent WinitPlatform.init testUi rfl
    (by simp [WinitPlatform.init])).2.2
